import Mathlib

/-!
Shallow embedding of the `lastmatch` pipeline of `src/bot.py` (a Discord bot
answering "show a player's last competitive match" by chaining four Riot API
HTTP calls). Remote responses are modelled as environment-supplied values; the
pipeline is a pure function from that environment to a call trace plus a
user-facing outcome. Python exceptions become an explicit error type; the
`try/except` ladder at the bottom of `lastmatch` becomes a total translation
into user messages.
-/

set_option autoImplicit false

namespace Bot

/-- Python exceptions that can escape the pipeline body in `bot.py`:
`aiohttp.ClientResponseError` (from `resp.raise_for_status()`), `ValueError`
(empty history, `datetime.fromisoformat`), `KeyError` (missing dict key) and
`StopIteration` (from `next` over an empty generator). -/
inductive PyError where
  | clientResponseError (status : Nat)
  | valueError (msg : String)
  | keyError (key : String)
  | stopIteration
  deriving DecidableEq, Repr

/-- A JSON-ish stat value as it appears in a participant's `stats` dict. -/
inductive StatVal where
  | int (n : Int)
  | bool (b : Bool)
  | str (s : String)
  deriving DecidableEq, Repr

/-- Python truthiness, as used by `'Win' if stats['win'] else 'Loss'` and the
embed colour choice. -/
def StatVal.truthy : StatVal → Bool
  | .int n => n != 0
  | .bool b => b
  | .str s => s != ""

/-- An HTTP response as the pipeline observes it: a status code plus an
already-decoded JSON body of the endpoint's shape. -/
structure HttpResponse (α : Type) where
  status : Nat
  body : α
  deriving DecidableEq, Repr

/-- Body of the account-by-riot-id endpoint; `data["puuid"]` in the code, so
the field is optional here and its absence raises `KeyError "puuid"`. -/
structure AccountBody where
  puuid : Option String
  deriving DecidableEq, Repr

/-- One entry of the match history list; `history[0]["matchId"]` in the code,
so the field is optional and its absence raises `KeyError "matchId"`. -/
structure HistoryEntry where
  matchId : Option String
  deriving DecidableEq, Repr

/-- Body of the matchlists-by-puuid endpoint; the code reads
`data.get("history", [])`, so the list itself is optional with default `[]`. -/
structure HistoryBody where
  history : Option (List HistoryEntry)
  deriving DecidableEq, Repr

/-- One participant of `match["players"]["all_players"]`: the code reads
`p["puuid"]` and `p["stats"]`; `stats` is a dict modelled as an ordered
association list (Python dict keys are unique and iterate in insertion
order). -/
structure PlayerEntry where
  puuid : String
  stats : List (String × StatVal)
  deriving DecidableEq, Repr

/-- The `match["metadata"]` dict: the code reads `mapName` and
`gameStartTime`. -/
structure MatchMetadata where
  mapName : String
  gameStartTime : String
  deriving DecidableEq, Repr

/-- Body of the match-details endpoint, restricted to the keys the code
reads: `match["players"]["all_players"]` and `match["metadata"]`. -/
structure MatchBody where
  all_players : List PlayerEntry
  metadata : MatchMetadata
  deriving DecidableEq, Repr

/-- Body of the ranked-player endpoint; the code reads
`data.get("competitiveTier", 0)`, so the field is optional with default 0. -/
structure RankBody where
  competitiveTier : Option Int
  deriving DecidableEq, Repr

/-- Python dict lookup `d[k]` / `d.get(k)` on an association list: the value
at the first matching key, if any. -/
def dictGet (d : List (String × StatVal)) (k : String) : Option StatVal :=
  (d.find? (fun kv => kv.fst == k)).map Prod.snd

/-- The `TIER_MAP` dict of `bot.py`, lines 27-54, as an association list. -/
def TIER_MAP : List (Int × String) :=
  [(0, "Unrated"),
   (1, "Iron 1"), (2, "Iron 2"), (3, "Iron 3"),
   (4, "Bronze 1"), (5, "Bronze 2"), (6, "Bronze 3"),
   (7, "Silver 1"), (8, "Silver 2"), (9, "Silver 3"),
   (10, "Gold 1"), (11, "Gold 2"), (12, "Gold 3"),
   (13, "Platinum 1"), (14, "Platinum 2"), (15, "Platinum 3"),
   (16, "Diamond 1"), (17, "Diamond 2"), (18, "Diamond 3"),
   (19, "Ascendant 1"), (20, "Ascendant 2"), (21, "Ascendant 3"),
   (22, "Immortal 1"), (23, "Immortal 2"), (24, "Immortal 3"),
   (25, "Radiant")]

/-- `TIER_MAP.get(t, "Unknown")`: total lookup with the sentinel default. -/
def tierMapGet (t : Int) : String :=
  ((TIER_MAP.find? (fun kv => kv.fst == t)).map Prod.snd).getD "Unknown"

/-- `resp.raise_for_status()`: `aiohttp` raises `ClientResponseError` with the
response's status exactly when the status is 400 or above. -/
def raise_for_status (status : Nat) : Except PyError Unit :=
  if 400 ≤ status then .error (.clientResponseError status) else .ok ()

/-- `get_puuid` (bot.py lines 71-87): raise for a non-success status, then
return `data["puuid"]` (a missing key raises `KeyError`). -/
def get_puuid (resp : HttpResponse AccountBody) : Except PyError String :=
  match raise_for_status resp.status with
  | .error e => .error e
  | .ok _ =>
    match resp.body.puuid with
    | some p => .ok p
    | none => .error (.keyError "puuid")

/-- `get_last_competitive_match_id` (bot.py lines 90-107): raise for a
non-success status; `history = data.get("history", [])`; an empty history
raises `ValueError("No competitive matches found for this player.")`;
otherwise return `history[0]["matchId"]`. -/
def get_last_competitive_match_id (resp : HttpResponse HistoryBody) :
    Except PyError String :=
  match raise_for_status resp.status with
  | .error e => .error e
  | .ok _ =>
    match resp.body.history.getD [] with
    | [] => .error (.valueError "No competitive matches found for this player.")
    | e :: _ =>
      match e.matchId with
      | some m => .ok m
      | none => .error (.keyError "matchId")

/-- `get_match_details` (bot.py lines 110-116): raise for a non-success
status, then return the decoded body. -/
def get_match_details (resp : HttpResponse MatchBody) : Except PyError MatchBody :=
  match raise_for_status resp.status with
  | .error e => .error e
  | .ok _ => .ok resp.body

/-- `get_current_rank` (bot.py lines 119-127): raise for a non-success
status, then `TIER_MAP.get(data.get("competitiveTier", 0), "Unknown")`. -/
def get_current_rank (resp : HttpResponse RankBody) : Except PyError String :=
  match raise_for_status resp.status with
  | .error e => .error e
  | .ok _ => .ok (tierMapGet (resp.body.competitiveTier.getD 0))

/-- A model of CPython `datetime` as far as the pipeline stores it; only the
six components `fromisoformat` fills here are kept. -/
structure PyDateTime where
  year : Nat
  month : Nat
  day : Nat
  hour : Nat
  minute : Nat
  second : Nat
  deriving DecidableEq, Repr

/-- Whether a year is a leap year (CPython `calendar.isleap`). -/
def isLeapYear (y : Nat) : Bool :=
  y % 4 == 0 && (y % 100 != 0 || y % 400 == 0)

/-- Days in a month, as CPython validates `fromisoformat` components. -/
def daysInMonth (y m : Nat) : Nat :=
  if m == 2 then (if isLeapYear y then 29 else 28)
  else if m == 4 || m == 6 || m == 9 || m == 11 then 30
  else 31

/-- Numeric value of two ASCII digit characters. -/
def twoDigits (a b : Char) : Nat :=
  (a.toNat - 48) * 10 + (b.toNat - 48)

/-- Time-of-day part of the ISO grammar accepted by
`datetime.fromisoformat` (CPython 3.10 and earlier): `HH`, `HH:MM` or
`HH:MM:SS`; fractional seconds and timezone offsets are outside the subset
this model covers. -/
def parseTimePart : List Char → Option (Nat × Nat × Nat)
  | [h1, h2] =>
    if h1.isDigit ∧ h2.isDigit ∧ twoDigits h1 h2 ≤ 23 then
      some (twoDigits h1 h2, 0, 0)
    else none
  | [h1, h2, ':', m1, m2] =>
    if h1.isDigit ∧ h2.isDigit ∧ m1.isDigit ∧ m2.isDigit ∧
        twoDigits h1 h2 ≤ 23 ∧ twoDigits m1 m2 ≤ 59 then
      some (twoDigits h1 h2, twoDigits m1 m2, 0)
    else none
  | [h1, h2, ':', m1, m2, ':', s1, s2] =>
    if h1.isDigit ∧ h2.isDigit ∧ m1.isDigit ∧ m2.isDigit ∧
        s1.isDigit ∧ s2.isDigit ∧
        twoDigits h1 h2 ≤ 23 ∧ twoDigits m1 m2 ≤ 59 ∧ twoDigits s1 s2 ≤ 59 then
      some (twoDigits h1 h2, twoDigits m1 m2, twoDigits s1 s2)
    else none
  | _ => none

/-- Model of `datetime.fromisoformat` (CPython 3.10 and earlier grammar,
restricted to the subset without fractional seconds and offsets):
`YYYY-MM-DD` optionally followed by any single separator character and a
time-of-day; anything else raises `ValueError` carrying the invalid string
(the surrounding quotes of CPython's message are dropped). -/
def fromisoformat (s : String) : Except PyError PyDateTime :=
  match s.data with
  | y1 :: y2 :: y3 :: y4 :: '-' :: m1 :: m2 :: '-' :: d1 :: d2 :: rest =>
    if y1.isDigit ∧ y2.isDigit ∧ y3.isDigit ∧ y4.isDigit ∧
        m1.isDigit ∧ m2.isDigit ∧ d1.isDigit ∧ d2.isDigit then
      let y := twoDigits y1 y2 * 100 + twoDigits y3 y4
      let mo := twoDigits m1 m2
      let d := twoDigits d1 d2
      if 1 ≤ mo ∧ mo ≤ 12 ∧ 1 ≤ d ∧ d ≤ daysInMonth y mo then
        match rest with
        | [] => .ok ⟨y, mo, d, 0, 0, 0⟩
        | _ :: timeChars =>
          match parseTimePart timeChars with
          | some (h, mi, se) => .ok ⟨y, mo, d, h, mi, se⟩
          | none => .error (.valueError ("Invalid isoformat string: " ++ s))
      else .error (.valueError ("Invalid isoformat string: " ++ s))
    else .error (.valueError ("Invalid isoformat string: " ++ s))
  | _ => .error (.valueError ("Invalid isoformat string: " ++ s))

/-- Python `s.rstrip("Z")`: remove every trailing `Z`. -/
def rstripZ (s : String) : String :=
  ⟨(s.data.reverse.dropWhile (fun c => c == 'Z')).reverse⟩

/-- The environment of one pipeline run: what each Riot endpoint would answer,
as a function of the request parameters the code puts in the URL. -/
structure RiotEnv where
  account : String → String → HttpResponse AccountBody
  matchlist : String → HttpResponse HistoryBody
  matchdetails : String → HttpResponse MatchBody
  rank : String → HttpResponse RankBody

/-- The four remote calls, for recording the issue order. -/
inductive ApiCall where
  | account
  | matchlist
  | matchdetails
  | rank
  deriving DecidableEq, Repr

/-- The data content of the embed `lastmatch` builds on success (bot.py lines
154-170): title `"{game_name}#{tag_line} — {rank}"`, the located
participant's win flag, the map name, the parsed start time, and one field
per stat other than `"win"`. The presenter-level rendering of each field
(`k.replace("_", " ").title()` and `str(v)`) is applied at display time to
these pairs and is not re-modelled here. -/
structure SummaryEmbed where
  title : String
  won : Bool
  mapName : String
  date : PyDateTime
  statFields : List (String × StatVal)
  deriving DecidableEq, Repr

/-- Body of `lastmatch` after the four calls succeeded (bot.py lines 149-170):
`me = next(p for p in match["players"]["all_players"] if p["puuid"] == puuid)`
(`StopIteration` when no participant matches), then
`date = datetime.fromisoformat(meta["gameStartTime"].rstrip("Z"))`, then the
embed whose description reads `stats["win"]` (a missing key raises
`KeyError "win"`) and whose field loop skips exactly the key `"win"`. -/
def buildEmbed (mtch : MatchBody) (puuid game_name tag_line rank : String) :
    Except PyError SummaryEmbed :=
  match mtch.all_players.find? (fun p => p.puuid == puuid) with
  | none => .error .stopIteration
  | some me =>
    match fromisoformat (rstripZ mtch.metadata.gameStartTime) with
    | .error e => .error e
    | .ok date =>
      match dictGet me.stats "win" with
      | none => .error (.keyError "win")
      | some winVal =>
        .ok { title := game_name ++ "#" ++ tag_line ++ " — " ++ rank
              won := winVal.truthy
              mapName := mtch.metadata.mapName
              date := date
              statFields := me.stats.filter (fun kv => kv.fst != "win") }

/-- Stage of the pipeline after the match details arrived: the fourth call
(`get_current_rank`, bot.py line 147) and the embed construction. The first
component is the list of remote calls this stage issues. -/
def afterMatch (env : RiotEnv) (game_name tag_line puuid : String)
    (mtch : MatchBody) : List ApiCall × Except PyError SummaryEmbed :=
  match get_current_rank (env.rank puuid) with
  | .error e => ([ApiCall.rank], .error e)
  | .ok rank => ([ApiCall.rank], buildEmbed mtch puuid game_name tag_line rank)

/-- Stage after the match id is known: the third call (`get_match_details`,
bot.py line 146) and everything after it. -/
def afterMatchId (env : RiotEnv) (game_name tag_line puuid mid : String) :
    List ApiCall × Except PyError SummaryEmbed :=
  match get_match_details (env.matchdetails mid) with
  | .error e => ([ApiCall.matchdetails], .error e)
  | .ok mtch =>
    let rest := afterMatch env game_name tag_line puuid mtch
    (ApiCall.matchdetails :: rest.1, rest.2)

/-- Stage after the puuid is known: the second call
(`get_last_competitive_match_id`, bot.py line 145) and everything after it. -/
def afterPuuid (env : RiotEnv) (game_name tag_line puuid : String) :
    List ApiCall × Except PyError SummaryEmbed :=
  match get_last_competitive_match_id (env.matchlist puuid) with
  | .error e => ([ApiCall.matchlist], .error e)
  | .ok mid =>
    let rest := afterMatchId env game_name tag_line puuid mid
    (ApiCall.matchlist :: rest.1, rest.2)

/-- The `try:` body of `lastmatch` (bot.py lines 142-171): the strictly
sequential chain of the four remote calls followed by the embed construction,
together with the trace of remote calls actually issued. -/
def lastmatchTry (env : RiotEnv) (game_name tag_line : String) :
    List ApiCall × Except PyError SummaryEmbed :=
  match get_puuid (env.account game_name tag_line) with
  | .error e => ([ApiCall.account], .error e)
  | .ok puuid =>
    let rest := afterPuuid env game_name tag_line puuid
    (ApiCall.account :: rest.1, rest.2)

/-- What the user is shown: the success embed, or one of the three failure
messages of the `except` ladder (bot.py lines 173-183). -/
inductive UserMessage where
  | embed (e : SummaryEmbed)
  | riotApiError (status : Nat)
  | warning (msg : String)
  | generic
  deriving DecidableEq, Repr

/-- The `except` ladder of `lastmatch` (bot.py lines 173-183):
`aiohttp.ClientResponseError` becomes the Riot-API-status message,
`ValueError` the `⚠️` message carrying the exception text, and any other
exception (`KeyError`, `StopIteration`, ...) falls to the final
`except Exception` and becomes the generic message. -/
def exceptLadder : PyError → UserMessage
  | .clientResponseError s => .riotApiError s
  | .valueError m => .warning m
  | .keyError _ => .generic
  | .stopIteration => .generic

/-- The whole `lastmatch` handler: run the `try:` body, then translate any
escaping exception through the `except` ladder. Returns the trace of issued
remote calls and the message sent. -/
def lastmatch (env : RiotEnv) (game_name tag_line : String) :
    List ApiCall × UserMessage :=
  ((lastmatchTry env game_name tag_line).1,
    match (lastmatchTry env game_name tag_line).2 with
    | .ok e => .embed e
    | .error err => exceptLadder err)

/-- Whether a message is one of the three user-facing failure shapes of the
`except` ladder (provider-status message, `⚠️` message, generic message). -/
def UserMessage.isFailureShape : UserMessage → Bool
  | .riotApiError _ => true
  | .warning _ => true
  | .generic => true
  | .embed _ => false

/-! Concrete environments used to evaluate the theorems on closed inputs. -/

/-- The stats dict of the round-trip example in the spec. -/
def exampleStats : List (String × StatVal) :=
  [("kills", .int 10), ("deaths", .int 5), ("win", .bool true)]

/-- A match record whose only participant is the resolved player `P1`. -/
def exampleMatchBody : MatchBody :=
  ⟨[⟨"P1", exampleStats⟩], ⟨"Ascent", "2024-05-01T12:00:00Z"⟩⟩

/-- All four endpoints succeed. -/
def envAllOk : RiotEnv where
  account := fun _ _ => ⟨200, ⟨some "P1"⟩⟩
  matchlist := fun _ => ⟨200, ⟨some [⟨some "M1"⟩]⟩⟩
  matchdetails := fun _ => ⟨200, exampleMatchBody⟩
  rank := fun _ => ⟨200, ⟨some 10⟩⟩

/-- The account endpoint answers 500. -/
def envAccountFail : RiotEnv where
  account := fun _ _ => ⟨500, ⟨none⟩⟩
  matchlist := fun _ => ⟨200, ⟨some [⟨some "M1"⟩]⟩⟩
  matchdetails := fun _ => ⟨200, exampleMatchBody⟩
  rank := fun _ => ⟨200, ⟨some 10⟩⟩

/-- The ranked endpoint answers 429; the first three succeed. -/
def envRankFail : RiotEnv where
  account := fun _ _ => ⟨200, ⟨some "P1"⟩⟩
  matchlist := fun _ => ⟨200, ⟨some [⟨some "M1"⟩]⟩⟩
  matchdetails := fun _ => ⟨200, exampleMatchBody⟩
  rank := fun _ => ⟨429, ⟨some 10⟩⟩

/-- The matchlist endpoint succeeds with an empty competitive history. -/
def envEmptyHist : RiotEnv where
  account := fun _ _ => ⟨200, ⟨some "P1"⟩⟩
  matchlist := fun _ => ⟨200, ⟨some []⟩⟩
  matchdetails := fun _ => ⟨200, exampleMatchBody⟩
  rank := fun _ => ⟨200, ⟨some 10⟩⟩

/-- The account endpoint succeeds but its body lacks the `puuid` field. -/
def envNoPuuid : RiotEnv where
  account := fun _ _ => ⟨200, ⟨none⟩⟩
  matchlist := fun _ => ⟨200, ⟨some [⟨some "M1"⟩]⟩⟩
  matchdetails := fun _ => ⟨200, exampleMatchBody⟩
  rank := fun _ => ⟨200, ⟨some 10⟩⟩

/-- All calls succeed but no participant of the match is the resolved
player. -/
def envSelfMiss : RiotEnv where
  account := fun _ _ => ⟨200, ⟨some "P1"⟩⟩
  matchlist := fun _ => ⟨200, ⟨some [⟨some "M1"⟩]⟩⟩
  matchdetails := fun _ =>
    ⟨200, ⟨[⟨"P2", exampleStats⟩], ⟨"Ascent", "2024-05-01T12:00:00Z"⟩⟩⟩
  rank := fun _ => ⟨200, ⟨some 10⟩⟩

/-- All calls succeed and two distinct participants carry the resolved
puuid `P1`, preceded by an unrelated participant. -/
def envDupSelf : RiotEnv where
  account := fun _ _ => ⟨200, ⟨some "P1"⟩⟩
  matchlist := fun _ => ⟨200, ⟨some [⟨some "M1"⟩]⟩⟩
  matchdetails := fun _ =>
    ⟨200, ⟨[⟨"P2", [("kills", .int 7), ("win", .bool false)]⟩,
            ⟨"P1", exampleStats⟩,
            ⟨"P1", [("kills", .int 99), ("win", .bool false)]⟩],
           ⟨"Ascent", "2024-05-01T12:00:00Z"⟩⟩⟩
  rank := fun _ => ⟨200, ⟨some 10⟩⟩

/-- All calls succeed but the match metadata carries a start time that is not
an ISO-format timestamp. -/
def envBadDate : RiotEnv where
  account := fun _ _ => ⟨200, ⟨some "P1"⟩⟩
  matchlist := fun _ => ⟨200, ⟨some [⟨some "M1"⟩]⟩⟩
  matchdetails := fun _ =>
    ⟨200, ⟨[⟨"P1", exampleStats⟩], ⟨"Ascent", "tomorrow"⟩⟩⟩
  rank := fun _ => ⟨200, ⟨some 10⟩⟩

/-- All calls succeed but the located participant's stats lack the `win`
key. -/
def envNoWin : RiotEnv where
  account := fun _ _ => ⟨200, ⟨some "P1"⟩⟩
  matchlist := fun _ => ⟨200, ⟨some [⟨some "M1"⟩]⟩⟩
  matchdetails := fun _ =>
    ⟨200, ⟨[⟨"P1", [("kills", .int 3)]⟩, ⟨"P1", exampleStats⟩],
           ⟨"Ascent", "2024-05-01T12:00:00Z"⟩⟩⟩
  rank := fun _ => ⟨200, ⟨some 10⟩⟩

end Bot

/-! Helper lemmas about the individual remote helpers and the call trace. -/

namespace Bot

theorem get_puuid_status_fail (r : HttpResponse AccountBody) (h : 400 ≤ r.status) :
    get_puuid r = .error (.clientResponseError r.status) := by
  simp [get_puuid, raise_for_status, h]

theorem get_hist_status_fail (r : HttpResponse HistoryBody) (h : 400 ≤ r.status) :
    get_last_competitive_match_id r = .error (.clientResponseError r.status) := by
  simp [get_last_competitive_match_id, raise_for_status, h]

theorem get_details_status_fail (r : HttpResponse MatchBody) (h : 400 ≤ r.status) :
    get_match_details r = .error (.clientResponseError r.status) := by
  simp [get_match_details, raise_for_status, h]

theorem get_rank_status_fail (r : HttpResponse RankBody) (h : 400 ≤ r.status) :
    get_current_rank r = .error (.clientResponseError r.status) := by
  simp [get_current_rank, raise_for_status, h]

theorem get_details_ok (r : HttpResponse MatchBody) (h : r.status < 400) :
    get_match_details r = .ok r.body := by
  simp [get_match_details, raise_for_status, Nat.not_le.mpr h]

theorem get_current_rank_ok (r : HttpResponse RankBody) (h : r.status < 400) :
    get_current_rank r = .ok (tierMapGet (r.body.competitiveTier.getD 0)) := by
  simp [get_current_rank, raise_for_status, Nat.not_le.mpr h]

theorem get_hist_empty (r : HttpResponse HistoryBody) (h : r.status < 400)
    (he : r.body.history.getD [] = []) :
    get_last_competitive_match_id r =
      .error (.valueError "No competitive matches found for this player.") := by
  simp [get_last_competitive_match_id, raise_for_status, Nat.not_le.mpr h, he]

theorem lastmatch_fst (env : RiotEnv) (g t : String) :
    (lastmatch env g t).1 = (lastmatchTry env g t).1 := rfl

theorem afterMatch_trace (env : RiotEnv) (g t puuid : String) (mtch : MatchBody) :
    (afterMatch env g t puuid mtch).1 = [ApiCall.rank] := by
  cases h : get_current_rank (env.rank puuid) <;> simp [afterMatch, h]

theorem lastmatchTry_trace_cases (env : RiotEnv) (g t : String) :
    (lastmatchTry env g t).1 = [ApiCall.account] ∨
    (lastmatchTry env g t).1 = [ApiCall.account, ApiCall.matchlist] ∨
    (lastmatchTry env g t).1 =
      [ApiCall.account, ApiCall.matchlist, ApiCall.matchdetails] ∨
    (lastmatchTry env g t).1 =
      [ApiCall.account, ApiCall.matchlist, ApiCall.matchdetails, ApiCall.rank] := by
  cases h1 : get_puuid (env.account g t) with
  | error e => simp [lastmatchTry, h1]
  | ok puuid =>
    cases h2 : get_last_competitive_match_id (env.matchlist puuid) with
    | error e => simp [lastmatchTry, h1, afterPuuid, h2]
    | ok mid =>
      cases h3 : get_match_details (env.matchdetails mid) with
      | error e => simp [lastmatchTry, h1, afterPuuid, h2, afterMatchId, h3]
      | ok mtch =>
        simp [lastmatchTry, h1, afterPuuid, h2, afterMatchId, h3, afterMatch_trace]

theorem find_first_self (pre : List PlayerEntry) (p : PlayerEntry)
    (suf : List PlayerEntry) (pu : String)
    (hpre : ∀ q ∈ pre, (q.puuid == pu) = false) (hp : (p.puuid == pu) = true) :
    (pre ++ p :: suf).find? (fun q => q.puuid == pu) = some p := by
  induction pre with
  | nil => simp [List.find?_cons, hp]
  | cons a as ih =>
    have ha := hpre a (by simp)
    simp only [List.cons_append, List.find?_cons, ha]
    exact ih (fun q hq => hpre q (by simp [hq]))

end Bot

/-! Claim theorems. -/

namespace Bot

/-- C1: for every run in which one of the four remote calls returns a
non-success HTTP status (each call before it in the code's order having
succeeded), the pipeline fails with the provider-error message carrying that
same status code, and no remote call strictly after the failing one in the
dependency order is issued: the call trace stops at the failing call. -/
theorem C1_provider_status_aborts (env : RiotEnv) (g t : String) :
    (400 ≤ (env.account g t).status →
      lastmatch env g t =
        ([ApiCall.account], UserMessage.riotApiError (env.account g t).status)) ∧
    (∀ puuid, get_puuid (env.account g t) = .ok puuid →
      400 ≤ (env.matchlist puuid).status →
      lastmatch env g t =
        ([ApiCall.account, ApiCall.matchlist],
          UserMessage.riotApiError (env.matchlist puuid).status)) ∧
    (∀ puuid mid, get_puuid (env.account g t) = .ok puuid →
      get_last_competitive_match_id (env.matchlist puuid) = .ok mid →
      400 ≤ (env.matchdetails mid).status →
      lastmatch env g t =
        ([ApiCall.account, ApiCall.matchlist, ApiCall.matchdetails],
          UserMessage.riotApiError (env.matchdetails mid).status)) ∧
    (∀ puuid mid mtch, get_puuid (env.account g t) = .ok puuid →
      get_last_competitive_match_id (env.matchlist puuid) = .ok mid →
      get_match_details (env.matchdetails mid) = .ok mtch →
      400 ≤ (env.rank puuid).status →
      lastmatch env g t =
        ([ApiCall.account, ApiCall.matchlist, ApiCall.matchdetails, ApiCall.rank],
          UserMessage.riotApiError (env.rank puuid).status)) := by
  refine ⟨fun h => ?_, fun puuid h1 h => ?_, fun puuid mid h1 h2 h => ?_,
    fun puuid mid mtch h1 h2 h3 h => ?_⟩
  · have e1 := get_puuid_status_fail (env.account g t) h
    simp [lastmatch, lastmatchTry, e1, exceptLadder]
  · have e2 := get_hist_status_fail (env.matchlist puuid) h
    simp [lastmatch, lastmatchTry, h1, afterPuuid, e2, exceptLadder]
  · have e3 := get_details_status_fail (env.matchdetails mid) h
    simp [lastmatch, lastmatchTry, h1, afterPuuid, h2, afterMatchId, e3,
      exceptLadder]
  · have e4 := get_rank_status_fail (env.rank puuid) h
    simp [lastmatch, lastmatchTry, h1, afterPuuid, h2, afterMatchId, h3,
      afterMatch, e4, exceptLadder]

/-- C1 witness: the ranked endpoint answers 429 after the first three calls
succeed; the run shows the 429 provider message with all four calls issued. -/
theorem C1_provider_status_aborts_witness :
    lastmatch envRankFail "Alice" "1234" =
      ([ApiCall.account, ApiCall.matchlist, ApiCall.matchdetails, ApiCall.rank],
        UserMessage.riotApiError 429) :=
  (C1_provider_status_aborts envRankFail "Alice" "1234").2.2.2 "P1" "M1"
    exampleMatchBody rfl rfl rfl (by decide)

/-- C2: when identity resolution succeeds and the matchlist endpoint answers
successfully with an empty competitive history, the run shows the no-match
`⚠️` message (a shape distinct from the provider-status message) and the
match-details call is never issued; for a successful non-empty history, the
first entry's match identifier is returned. -/
theorem C2_empty_history_no_match (env : RiotEnv) (g t puuid : String)
    (h1 : get_puuid (env.account g t) = .ok puuid)
    (hst : (env.matchlist puuid).status < 400) :
    ((env.matchlist puuid).body.history.getD [] = [] →
      lastmatch env g t =
        ([ApiCall.account, ApiCall.matchlist],
          UserMessage.warning "No competitive matches found for this player.") ∧
      ApiCall.matchdetails ∉ (lastmatch env g t).1 ∧
      (∀ s, (lastmatch env g t).2 ≠ UserMessage.riotApiError s)) ∧
    (∀ e rest m, (env.matchlist puuid).body.history.getD [] = e :: rest →
      e.matchId = some m →
      get_last_competitive_match_id (env.matchlist puuid) = .ok m) := by
  constructor
  · intro he
    have e2 := get_hist_empty (env.matchlist puuid) hst he
    have hm : lastmatch env g t =
        ([ApiCall.account, ApiCall.matchlist],
          UserMessage.warning "No competitive matches found for this player.") := by
      simp [lastmatch, lastmatchTry, h1, afterPuuid, e2, exceptLadder]
    refine ⟨hm, ?_, fun s => ?_⟩
    · rw [hm]; decide
    · rw [hm]; simp
  · intro e rest m he hm
    simp [get_last_competitive_match_id, raise_for_status, Nat.not_le.mpr hst,
      he, hm]

/-- C2 witness: with a successful empty history for the resolved player, the
run shows the no-match message and never calls the match-details endpoint. -/
theorem C2_empty_history_no_match_witness :
    lastmatch envEmptyHist "Alice" "1234" =
      ([ApiCall.account, ApiCall.matchlist],
        UserMessage.warning "No competitive matches found for this player.") :=
  (((C2_empty_history_no_match envEmptyHist "Alice" "1234" "P1" rfl
    (by decide)).1) rfl).1

/-- C3: when all four remote calls succeed but no participant of the fetched
match carries the resolved identifier, the body fails with `StopIteration`
(the embedding of `SelfNotFound`) and the user sees the generic failure
message — not the provider-status message and not the no-match message. -/
theorem C3_self_not_found_generic (env : RiotEnv) (g t puuid mid : String)
    (mtch : MatchBody) (rank : String)
    (h1 : get_puuid (env.account g t) = .ok puuid)
    (h2 : get_last_competitive_match_id (env.matchlist puuid) = .ok mid)
    (h3 : get_match_details (env.matchdetails mid) = .ok mtch)
    (h4 : get_current_rank (env.rank puuid) = .ok rank)
    (h5 : mtch.all_players.find? (fun p => p.puuid == puuid) = none) :
    (lastmatchTry env g t).2 = .error .stopIteration ∧
    (lastmatch env g t).2 = UserMessage.generic ∧
    (∀ s, (lastmatch env g t).2 ≠ UserMessage.riotApiError s) ∧
    (∀ m, (lastmatch env g t).2 ≠ UserMessage.warning m) := by
  have hb : (lastmatchTry env g t).2 = .error .stopIteration := by
    simp [lastmatchTry, h1, afterPuuid, h2, afterMatchId, h3, afterMatch, h4,
      buildEmbed, h5]
  have hm : (lastmatch env g t).2 = UserMessage.generic := by
    simp [lastmatch, hb, exceptLadder]
  exact ⟨hb, hm, fun s => by rw [hm]; simp, fun m => by rw [hm]; simp⟩

/-- C3 witness: the fetched match only contains participant `P2` while the
handle resolved to `P1`; the body stops with `StopIteration` and the user
sees the generic message. -/
theorem C3_self_not_found_generic_witness :
    (lastmatchTry envSelfMiss "Alice" "1234").2 = .error .stopIteration ∧
    (lastmatch envSelfMiss "Alice" "1234").2 = UserMessage.generic := by
  obtain ⟨ha, hb, -, -⟩ := C3_self_not_found_generic envSelfMiss "Alice" "1234"
    "P1" "M1" (envSelfMiss.matchdetails "M1").body "Gold 1" rfl rfl rfl rfl rfl
  exact ⟨ha, hb⟩

/-- C4: every tier value 0 ≤ t ≤ 25 is mapped to its entry of the fixed
`TIER_MAP` table (0 to "Unrated", 10 to "Gold 1", 25 to "Radiant" among
them); every tier outside that range yields "Unknown" and no error; and a
successful ranked response without a `competitiveTier` field uses the
default tier 0, hence "Unrated". -/
theorem C4_tier_table_total (r : HttpResponse RankBody) :
    (∀ t : Int, 0 ≤ t → t ≤ 25 →
      ∃ kv ∈ TIER_MAP, kv.1 = t ∧ tierMapGet t = kv.2) ∧
    tierMapGet 0 = "Unrated" ∧ tierMapGet 10 = "Gold 1" ∧
    tierMapGet 25 = "Radiant" ∧
    (∀ t : Int, t < 0 ∨ 25 < t → tierMapGet t = "Unknown") ∧
    (r.status < 400 → r.body.competitiveTier = none →
      get_current_rank r = .ok (tierMapGet 0) ∧ tierMapGet 0 = "Unrated") ∧
    (r.status < 400 → ∃ lbl, get_current_rank r = .ok lbl) := by
  refine ⟨?_, rfl, rfl, rfl, ?_, ?_, ?_⟩
  · intro t h0 h25; interval_cases t <;> decide
  · intro t ht
    have hnone : TIER_MAP.find? (fun kv => kv.fst == t) = none := by
      rw [List.find?_eq_none]
      intro kv hkv
      simp only [TIER_MAP, List.mem_cons, List.not_mem_nil, or_false] at hkv
      rcases hkv with h|h|h|h|h|h|h|h|h|h|h|h|h|h|h|h|h|h|h|h|h|h|h|h|h|h <;>
        (subst h; simp; omega)
    simp [tierMapGet, hnone]
  · intro hs hn
    refine ⟨?_, rfl⟩
    simp [get_current_rank_ok r hs, hn]
  · intro hs
    exact ⟨_, get_current_rank_ok r hs⟩

/-- C4 witness: tier 30 degrades to "Unknown" and a successful response with
no tier field yields the default label "Unrated". -/
theorem C4_tier_table_total_witness :
    tierMapGet 30 = "Unknown" ∧
    get_current_rank ⟨200, ⟨none⟩⟩ = .ok (tierMapGet 0) ∧
    tierMapGet 0 = "Unrated" := by
  have h := C4_tier_table_total ⟨200, ⟨none⟩⟩
  exact ⟨h.2.2.2.2.1 30 (by omega), h.2.2.2.2.2.1 (by decide) rfl⟩

end Bot

namespace Bot

/-- C5: for every located participant, the produced summary's stat fields are
exactly the participant's stats with the "win" key removed — every other key
kept with its value unchanged, in order — and the summary's won flag is the
truthiness of the participant's "win" stat. -/
theorem C5_summary_excludes_win (env : RiotEnv) (g t puuid mid : String)
    (mtch : MatchBody) (rank : String) (me : PlayerEntry) (date : PyDateTime)
    (winVal : StatVal)
    (h1 : get_puuid (env.account g t) = .ok puuid)
    (h2 : get_last_competitive_match_id (env.matchlist puuid) = .ok mid)
    (h3 : get_match_details (env.matchdetails mid) = .ok mtch)
    (h4 : get_current_rank (env.rank puuid) = .ok rank)
    (h5 : mtch.all_players.find? (fun p => p.puuid == puuid) = some me)
    (h6 : fromisoformat (rstripZ mtch.metadata.gameStartTime) = .ok date)
    (h7 : dictGet me.stats "win" = some winVal) :
    (lastmatch env g t).2 =
      UserMessage.embed
        ⟨g ++ "#" ++ t ++ " — " ++ rank, winVal.truthy, mtch.metadata.mapName,
          date, me.stats.filter (fun kv => kv.fst != "win")⟩ ∧
    (∀ k v, (k, v) ∈ me.stats.filter (fun kv => kv.fst != "win") ↔
      ((k, v) ∈ me.stats ∧ k ≠ "win")) := by
  constructor
  · have hb : (lastmatchTry env g t).2 =
        .ok ⟨g ++ "#" ++ t ++ " — " ++ rank, winVal.truthy,
          mtch.metadata.mapName, date,
          me.stats.filter (fun kv => kv.fst != "win")⟩ := by
      simp [lastmatchTry, h1, afterPuuid, h2, afterMatchId, h3, afterMatch, h4,
        buildEmbed, h5, h6, h7]
    simp [lastmatch, hb]
  · intro k v
    simp [List.mem_filter]

/-- C5 witness: the spec's round-trip example — stats kills 10, deaths 5,
win true — yields a summary with the "win" key removed, the other two stats
unchanged and won = true. -/
theorem C5_summary_excludes_win_witness :
    (lastmatch envAllOk "Alice" "1234").2 =
      UserMessage.embed ⟨"Alice#1234 — Gold 1", true, "Ascent",
        ⟨2024, 5, 1, 12, 0, 0⟩,
        [("kills", StatVal.int 10), ("deaths", StatVal.int 5)]⟩ :=
  (C5_summary_excludes_win envAllOk "Alice" "1234" "P1" "M1" exampleMatchBody
    "Gold 1" ⟨"P1", exampleStats⟩ ⟨2024, 5, 1, 12, 0, 0⟩ (StatVal.bool true)
    rfl rfl rfl rfl rfl rfl rfl).1

/-- C6 counterexample: a 200 identity-resolution response whose body lacks
the `puuid` field makes the run end in the generic message after the first
call — not in the provider-error message the claim asserts. -/
theorem C6_counterexample :
    lastmatch envNoPuuid "Alice" "1234" =
      ([ApiCall.account], UserMessage.generic) := rfl

/-- C6 (amended): a successful identity-resolution response whose body lacks
the identifier field raises `KeyError`, which the boundary surfaces as the
generic internal-error message — not as a provider error — and no further
remote call is issued. -/
theorem C6_missing_identifier_generic (env : RiotEnv) (g t : String)
    (h1 : (env.account g t).status < 400)
    (h2 : (env.account g t).body.puuid = none) :
    lastmatchTry env g t = ([ApiCall.account], .error (.keyError "puuid")) ∧
    (lastmatch env g t).2 = UserMessage.generic ∧
    (∀ s, (lastmatch env g t).2 ≠ UserMessage.riotApiError s) := by
  have hp : get_puuid (env.account g t) = .error (.keyError "puuid") := by
    simp [get_puuid, raise_for_status, Nat.not_le.mpr h1, h2]
  have hb : lastmatchTry env g t =
      ([ApiCall.account], .error (.keyError "puuid")) := by
    simp [lastmatchTry, hp]
  refine ⟨hb, ?_, fun s => ?_⟩
  · simp [lastmatch, hb, exceptLadder]
  · simp [lastmatch, hb, exceptLadder]

/-- C6 witness: concrete run of the amended claim on the malformed 200
response. -/
theorem C6_missing_identifier_generic_witness :
    lastmatchTry envNoPuuid "Bob" "42" =
      ([ApiCall.account], .error (.keyError "puuid")) ∧
    (lastmatch envNoPuuid "Bob" "42").2 = UserMessage.generic := by
  obtain ⟨ha, hb, -⟩ := C6_missing_identifier_generic envNoPuuid "Bob" "42"
    (by decide) rfl
  exact ⟨ha, hb⟩

/-- C7: every failure of the body is translated at the boundary into one of
the three user-facing failure shapes (provider-status, `⚠️`, generic) and
never into the success embed; successes become the embed; the translation is
a total function, so nothing propagates past the boundary; and no remote
call ever appears twice in the trace, so no step is retried. -/
theorem C7_boundary_translation (env : RiotEnv) (g t : String) :
    (∀ err, (lastmatchTry env g t).2 = .error err →
      ((lastmatch env g t).2.isFailureShape = true ∧
        ∀ e, (lastmatch env g t).2 ≠ UserMessage.embed e)) ∧
    (∀ e, (lastmatchTry env g t).2 = .ok e →
      (lastmatch env g t).2 = UserMessage.embed e) ∧
    (∀ c : ApiCall, (lastmatch env g t).1.count c ≤ 1) := by
  refine ⟨fun err herr => ⟨?_, fun e => ?_⟩, fun e he => ?_, fun c => ?_⟩
  · cases err <;>
      simp [lastmatch, herr, exceptLadder, UserMessage.isFailureShape]
  · cases err <;> simp [lastmatch, herr, exceptLadder]
  · simp [lastmatch, he]
  · rw [lastmatch_fst]
    rcases lastmatchTry_trace_cases env g t with h|h|h|h <;> rw [h] <;>
      cases c <;> decide

/-- C7 witness: a failing run translates to a failure shape and issues the
account call exactly once. -/
theorem C7_boundary_translation_witness :
    (lastmatch envAccountFail "Alice" "1234").2.isFailureShape = true ∧
    (lastmatch envAccountFail "Alice" "1234").1.count ApiCall.account ≤ 1 := by
  have h := C7_boundary_translation envAccountFail "Alice" "1234"
  exact ⟨(h.1 (.clientResponseError 500) rfl).1, h.2.2 ApiCall.account⟩

/-- C8: the four remote calls are strictly sequential — the rank lookup is
issued exactly when identity resolution, match-history lookup and
match-detail fetch have all succeeded; hence a run failing at the history or
detail step never issues the rank call, and when the rank call is issued the
trace is the full chain in order. -/
theorem C8_rank_strictly_sequential (env : RiotEnv) (g t : String) :
    (ApiCall.rank ∈ (lastmatch env g t).1 ↔
      ∃ puuid mid mtch,
        get_puuid (env.account g t) = .ok puuid ∧
        get_last_competitive_match_id (env.matchlist puuid) = .ok mid ∧
        get_match_details (env.matchdetails mid) = .ok mtch) ∧
    (ApiCall.rank ∈ (lastmatch env g t).1 →
      (lastmatch env g t).1 =
        [ApiCall.account, ApiCall.matchlist, ApiCall.matchdetails,
          ApiCall.rank]) := by
  have fwd : ApiCall.rank ∈ (lastmatchTry env g t).1 →
      ∃ puuid mid mtch,
        get_puuid (env.account g t) = .ok puuid ∧
        get_last_competitive_match_id (env.matchlist puuid) = .ok mid ∧
        get_match_details (env.matchdetails mid) = .ok mtch := by
    intro hmem
    cases h1 : get_puuid (env.account g t) with
    | error e => simp [lastmatchTry, h1] at hmem
    | ok puuid =>
      cases h2 : get_last_competitive_match_id (env.matchlist puuid) with
      | error e => simp [lastmatchTry, h1, afterPuuid, h2] at hmem
      | ok mid =>
        cases h3 : get_match_details (env.matchdetails mid) with
        | error e =>
          simp [lastmatchTry, h1, afterPuuid, h2, afterMatchId, h3] at hmem
        | ok mtch => exact ⟨puuid, mid, mtch, rfl, h2, h3⟩
  have bwd : ∀ puuid mid mtch,
      get_puuid (env.account g t) = .ok puuid →
      get_last_competitive_match_id (env.matchlist puuid) = .ok mid →
      get_match_details (env.matchdetails mid) = .ok mtch →
      (lastmatchTry env g t).1 =
        [ApiCall.account, ApiCall.matchlist, ApiCall.matchdetails,
          ApiCall.rank] := by
    intro puuid mid mtch h1 h2 h3
    simp [lastmatchTry, h1, afterPuuid, h2, afterMatchId, h3, afterMatch_trace]
  refine ⟨⟨fun hmem => fwd (by rwa [lastmatch_fst] at hmem), ?_⟩, ?_⟩
  · rintro ⟨puuid, mid, mtch, h1, h2, h3⟩
    rw [lastmatch_fst, bwd puuid mid mtch h1 h2 h3]
    decide
  · intro hmem
    obtain ⟨puuid, mid, mtch, h1, h2, h3⟩ :=
      fwd (by rwa [lastmatch_fst] at hmem)
    rw [lastmatch_fst]
    exact bwd puuid mid mtch h1 h2 h3

/-- C8 witness: the all-success run issues the rank call; the empty-history
run never does. -/
theorem C8_rank_strictly_sequential_witness :
    ApiCall.rank ∈ (lastmatch envAllOk "Alice" "1234").1 ∧
    ApiCall.rank ∉ (lastmatch envEmptyHist "Alice" "1234").1 := by
  constructor
  · exact (C8_rank_strictly_sequential envAllOk "Alice" "1234").1.mpr
      ⟨"P1", "M1", exampleMatchBody, rfl, rfl, rfl⟩
  · intro hmem
    obtain ⟨puuid, mid, mtch, h1, h2, h3⟩ :=
      (C8_rank_strictly_sequential envEmptyHist "Alice" "1234").1.mp hmem
    have hpu : Except.ok puuid = Except.ok "P1" := h1.symm.trans rfl
    injection hpu with hpu
    subst hpu
    have h2c : get_last_competitive_match_id (envEmptyHist.matchlist "P1") =
        .error (.valueError "No competitive matches found for this player.") :=
      rfl
    rw [h2c] at h2
    exact Except.noConfusion h2

/-- C9: when the participant list carries the resolved identifier more than
once, the pipeline does not fail: `next` selects the first matching
participant in list order and the summary is built from that participant's
stats. -/
theorem C9_first_duplicate_selected (env : RiotEnv) (g t puuid mid : String)
    (mtch : MatchBody) (rank : String) (pre suf : List PlayerEntry)
    (p : PlayerEntry) (date : PyDateTime) (winVal : StatVal)
    (h1 : get_puuid (env.account g t) = .ok puuid)
    (h2 : get_last_competitive_match_id (env.matchlist puuid) = .ok mid)
    (h3 : get_match_details (env.matchdetails mid) = .ok mtch)
    (h4 : get_current_rank (env.rank puuid) = .ok rank)
    (hsplit : mtch.all_players = pre ++ p :: suf)
    (hpre : ∀ q ∈ pre, (q.puuid == puuid) = false)
    (hp : (p.puuid == puuid) = true)
    (hdup : ∃ q ∈ suf, (q.puuid == puuid) = true)
    (h6 : fromisoformat (rstripZ mtch.metadata.gameStartTime) = .ok date)
    (h7 : dictGet p.stats "win" = some winVal) :
    (lastmatch env g t).2 =
      UserMessage.embed
        ⟨g ++ "#" ++ t ++ " — " ++ rank, winVal.truthy, mtch.metadata.mapName,
          date, p.stats.filter (fun kv => kv.fst != "win")⟩ := by
  have h5 : mtch.all_players.find? (fun q => q.puuid == puuid) = some p := by
    rw [hsplit]
    exact find_first_self pre p suf puuid hpre hp
  have hb : (lastmatchTry env g t).2 =
      .ok ⟨g ++ "#" ++ t ++ " — " ++ rank, winVal.truthy,
        mtch.metadata.mapName, date,
        p.stats.filter (fun kv => kv.fst != "win")⟩ := by
    simp [lastmatchTry, h1, afterPuuid, h2, afterMatchId, h3, afterMatch, h4,
      buildEmbed, h5, h6, h7]
  simp [lastmatch, hb]

/-- C9 witness: two participants carry `P1`; the summary is built from the
first one (kills 10, deaths 5), not the later one (kills 99). -/
theorem C9_first_duplicate_selected_witness :
    (lastmatch envDupSelf "Alice" "1234").2 =
      UserMessage.embed ⟨"Alice#1234 — Gold 1", true, "Ascent",
        ⟨2024, 5, 1, 12, 0, 0⟩,
        [("kills", StatVal.int 10), ("deaths", StatVal.int 5)]⟩ :=
  C9_first_duplicate_selected envDupSelf "Alice" "1234" "P1" "M1"
    (envDupSelf.matchdetails "M1").body "Gold 1"
    [⟨"P2", [("kills", .int 7), ("win", .bool false)]⟩]
    [⟨"P1", [("kills", .int 99), ("win", .bool false)]⟩]
    ⟨"P1", exampleStats⟩ ⟨2024, 5, 1, 12, 0, 0⟩ (StatVal.bool true)
    rfl rfl rfl rfl rfl (by decide) (by decide) (by decide) rfl rfl

/-- C10: even after all four remote calls succeed and the participant is
located, the run can still fail: an invalid ISO start time raises
`ValueError`, rendered through the same `⚠️` branch as the no-match
condition and carrying the exception text; and stats lacking the "win" key
raise `KeyError`, rendered as the generic failure message. -/
theorem C10_post_call_failures (env : RiotEnv) (g t puuid mid : String)
    (mtch : MatchBody) (rank : String) (me : PlayerEntry)
    (h1 : get_puuid (env.account g t) = .ok puuid)
    (h2 : get_last_competitive_match_id (env.matchlist puuid) = .ok mid)
    (h3 : get_match_details (env.matchdetails mid) = .ok mtch)
    (h4 : get_current_rank (env.rank puuid) = .ok rank)
    (h5 : mtch.all_players.find? (fun p => p.puuid == puuid) = some me) :
    (∀ m, fromisoformat (rstripZ mtch.metadata.gameStartTime) =
        .error (.valueError m) →
      (lastmatchTry env g t).2 = .error (.valueError m) ∧
      (lastmatch env g t).2 = UserMessage.warning m) ∧
    (∀ date, fromisoformat (rstripZ mtch.metadata.gameStartTime) = .ok date →
      dictGet me.stats "win" = none →
      (lastmatchTry env g t).2 = .error (.keyError "win") ∧
      (lastmatch env g t).2 = UserMessage.generic) := by
  constructor
  · intro m h6
    have hb : (lastmatchTry env g t).2 = .error (.valueError m) := by
      simp [lastmatchTry, h1, afterPuuid, h2, afterMatchId, h3, afterMatch, h4,
        buildEmbed, h5, h6]
    exact ⟨hb, by simp [lastmatch, hb, exceptLadder]⟩
  · intro date h6 h7
    have hb : (lastmatchTry env g t).2 = .error (.keyError "win") := by
      simp [lastmatchTry, h1, afterPuuid, h2, afterMatchId, h3, afterMatch, h4,
        buildEmbed, h5, h6, h7]
    exact ⟨hb, by simp [lastmatch, hb, exceptLadder]⟩

/-- C10 witness: start time "tomorrow" produces the `⚠️` message with the
`ValueError` text; stats without a "win" key produce the generic message. -/
theorem C10_post_call_failures_witness :
    (lastmatch envBadDate "Alice" "1234").2 =
      UserMessage.warning "Invalid isoformat string: tomorrow" ∧
    (lastmatch envNoWin "Alice" "1234").2 = UserMessage.generic := by
  constructor
  · exact ((C10_post_call_failures envBadDate "Alice" "1234" "P1" "M1"
      (envBadDate.matchdetails "M1").body "Gold 1" ⟨"P1", exampleStats⟩
      rfl rfl rfl rfl rfl).1 "Invalid isoformat string: tomorrow" rfl).2
  · exact ((C10_post_call_failures envNoWin "Alice" "1234" "P1" "M1"
      (envNoWin.matchdetails "M1").body "Gold 1" ⟨"P1", [("kills", .int 3)]⟩
      rfl rfl rfl rfl rfl).2 ⟨2024, 5, 1, 12, 0, 0⟩ rfl rfl).2

end Bot
